import Mathlib

/-!
The model data header of the gesture recognition example.

A verification development for the header
`03_Interence_on_MCU/gesture_recognition_inference/gesture_recognition_model_data.h`.

The header consists of two declarations:

    extern const unsigned char g_gesture_recognition_model_data[];
    extern const int g_gesture_recognition_model_data_len;

The embedding keeps what the declarations fix: the two names, the element type
`unsigned char`, the type `int` of the length, and the `const` qualifier of both.
Machine integers are mathematical integers reduced into the range of their type.
The width of `int` is not fixed by the header and is a parameter `w` throughout.
-/

namespace GestureModel

/-! ## The declared types -/

/-- Modelled from the spec: the number of bits of a `char` comes from the platform and
not from the header; the spec describes the buffer as an "ordered sequence of unsigned
8-bit values". -/
def CHAR_BIT : Nat := 8

/-- Largest value of an `unsigned char`. -/
def UCHAR_MAX : Int := 2 ^ CHAR_BIT - 1

/-- Largest value of an `int` of `w` bits (two's complement). -/
def INT_MAX (w : Nat) : Int := 2 ^ (w - 1) - 1

/-- Smallest value of an `int` of `w` bits (two's complement). -/
def INT_MIN (w : Nat) : Int := -(2 ^ (w - 1))

/-- Conversion of an integer to `unsigned char`: reduction modulo `2 ^ CHAR_BIT`. -/
def toUnsignedChar (v : Int) : Int := v % 2 ^ CHAR_BIT

/-- Conversion of an integer to an `int` of `w` bits: two's-complement wrap-around
into `INT_MIN w .. INT_MAX w`. -/
def toInt (w : Nat) (v : Int) : Int := (v - INT_MIN w) % (2 * 2 ^ (w - 1)) + INT_MIN w

/-! ## The declared objects -/

/-- The pair of objects the header declares, under the names it gives them. -/
structure ModelData where
  /-- Elements of `const unsigned char g_gesture_recognition_model_data[]`. -/
  g_gesture_recognition_model_data : List Int
  /-- Value of `const int g_gesture_recognition_model_data_len`. -/
  g_gesture_recognition_model_data_len : Int
  deriving DecidableEq, Repr

/-- Initialisers a defining unit supplies for the two declared objects: one integer
per array element and one integer for the length. The header fixes neither. -/
structure DefiningUnit where
  /-- Initialiser list of the array. -/
  dataInit : List Int
  /-- Initialiser of the length. -/
  lenInit : Int
  deriving DecidableEq, Repr

/-- The objects a program sees through the header when it is linked with the
defining unit `u`: every array element is stored in an `unsigned char`, the length
in an `int` of `w` bits. -/
def link (w : Nat) (u : DefiningUnit) : ModelData :=
  { g_gesture_recognition_model_data := u.dataInit.map toUnsignedChar
    g_gesture_recognition_model_data_len := toInt w u.lenInit }

/-! ## The defining unit -/

/-- Modelled from the spec: the defining unit `gesture_recognition_model_data.cpp`,
named by the comment of the header, is not among the sources. The spec describes it
as generated by a build step from a trained model artifact and embedded as a
compiled constant, with a length that "equals the number of elements in the
buffer". The unit generated from the bytes `artifact` therefore initialises the array
with those bytes and the length with their count. -/
def companionDefinition (artifact : List Int) : DefiningUnit :=
  { dataInit := artifact
    lenInit := artifact.length }

/-- The model blob of a program built from `artifact`: the declared objects linked
with the generated defining unit. -/
def modelBlob (w : Nat) (artifact : List Int) : ModelData :=
  link w (companionDefinition artifact)

/-! ## Operations through the declared interface -/

/-- The qualifiers of the two declarations that govern access to the objects. -/
structure Header where
  /-- Whether the array elements are declared `const`. -/
  dataConst : Bool
  /-- Whether the length is declared `const`. -/
  lenConst : Bool
  deriving DecidableEq, Repr

/-- The header as written: `const unsigned char` elements and a `const int` length. -/
def header : Header :=
  { dataConst := true
    lenConst := true }

/-- Subscript `g_gesture_recognition_model_data[i]`: the element at index `i`, or
`none` when `i` lies outside the array. -/
def readData (m : ModelData) (i : Int) : Option Int :=
  if i < 0 then none else m.g_gesture_recognition_model_data[i.toNat]?

/-- What a consumer can attempt on the two names: read or assign an element, read
or assign the length. -/
inductive Operation where
  | readElement (i : Int)
  | readLen
  | assignElement (i : Int) (v : Int)
  | assignLen (v : Int)
  deriving DecidableEq, Repr

/-- Why an operation is refused. -/
inductive AccessError where
  /-- Assignment to an object declared `const`. -/
  | readOnly
  /-- Subscript outside the array. -/
  | outOfRange
  deriving DecidableEq, Repr

/-- Effect of one operation under the declarations `h`: the objects afterwards and
the value the operation yields. An assignment is accepted only for an object not
declared `const`, and stores the value converted to the type of the object. -/
def perform (h : Header) (w : Nat) (m : ModelData) : Operation → Except AccessError (ModelData × Int)
  | .readElement i =>
    match readData m i with
    | some b => .ok (m, b)
    | none => .error .outOfRange
  | .readLen => .ok (m, m.g_gesture_recognition_model_data_len)
  | .assignElement i v =>
    if h.dataConst then .error .readOnly
    else if i < 0 ∨ (m.g_gesture_recognition_model_data.length : Int) ≤ i then .error .outOfRange
    else .ok ({ m with g_gesture_recognition_model_data :=
                  m.g_gesture_recognition_model_data.set i.toNat (toUnsignedChar v) },
              toUnsignedChar v)
  | .assignLen v =>
    if h.lenConst then .error .readOnly
    else .ok ({ m with g_gesture_recognition_model_data_len := toInt w v }, toInt w v)

/-! ## Facts about the conversions -/

theorem two_pow_pos_int (k : Nat) : (0 : Int) < 2 ^ k := by
  positivity

theorem toUnsignedChar_range (v : Int) : 0 ≤ toUnsignedChar v ∧ toUnsignedChar v ≤ 255 := by
  unfold toUnsignedChar CHAR_BIT
  have hpos : (0 : Int) < 2 ^ 8 := by norm_num
  have h1 := Int.emod_nonneg v (ne_of_gt hpos)
  have h2 := Int.emod_lt_of_pos v hpos
  norm_num at h1 h2 ⊢
  omega

theorem toInt_range (w : Nat) (v : Int) : INT_MIN w ≤ toInt w v ∧ toInt w v ≤ INT_MAX w := by
  unfold toInt INT_MIN INT_MAX
  have hpos := two_pow_pos_int (w - 1)
  generalize (2 : Int) ^ (w - 1) = H at hpos ⊢
  have h1 := Int.emod_nonneg (v - -H) (show 2 * H ≠ 0 by omega)
  have h2 := Int.emod_lt_of_pos (v - -H) (show 0 < 2 * H by omega)
  constructor <;> omega

theorem toInt_of_range (w : Nat) (v : Int) (hlo : INT_MIN w ≤ v) (hhi : v ≤ INT_MAX w) :
    toInt w v = v := by
  unfold toInt
  unfold INT_MIN INT_MAX at *
  have hpos := two_pow_pos_int (w - 1)
  generalize (2 : Int) ^ (w - 1) = H at hpos hlo hhi ⊢
  rw [Int.emod_eq_of_lt (by omega) (by omega)]
  omega

theorem toInt_le_self (w : Nat) (v : Int) (hv : 0 ≤ v) : toInt w v ≤ v := by
  unfold toInt INT_MIN
  have hpos := two_pow_pos_int (w - 1)
  generalize (2 : Int) ^ (w - 1) = H at hpos ⊢
  have hd : 0 ≤ (v - -H) / (2 * H) := Int.ediv_nonneg (by omega) (by omega)
  have hm := Int.emod_add_ediv (v - -H) (2 * H)
  have hmul : 0 ≤ 2 * H * ((v - -H) / (2 * H)) := mul_nonneg (by omega) hd
  omega

theorem readData_of_lt_length (m : ModelData) (i : Int) (h0 : 0 ≤ i)
    (hlt : i < (m.g_gesture_recognition_model_data.length : Int)) :
    ∃ b, readData m i = some b ∧ b ∈ m.g_gesture_recognition_model_data := by
  have hn : i.toNat < m.g_gesture_recognition_model_data.length := by omega
  refine ⟨m.g_gesture_recognition_model_data[i.toNat], ?_, List.getElem_mem _⟩
  unfold readData
  rw [if_neg (by omega), List.getElem?_eq_getElem hn]

theorem link_data_mem_range (w : Nat) (u : DefiningUnit) (b : Int)
    (hb : b ∈ (link w u).g_gesture_recognition_model_data) : 0 ≤ b ∧ b ≤ 255 := by
  unfold link at hb
  simp only [List.mem_map] at hb
  obtain ⟨a, _, rfl⟩ := hb
  exact toUnsignedChar_range a

theorem assign_refused_by_header (w : Nat) (m : ModelData) (i v : Int) :
    perform header w m (.assignElement i v) = .error .readOnly ∧
    perform header w m (.assignLen v) = .error .readOnly :=
  ⟨rfl, rfl⟩

theorem assign_accepted_without_const :
    perform { dataConst := false, lenConst := false } 32 (modelBlob 32 [28, 0, 0, 0, 84])
        (.assignElement 1 300)
      = .ok ({ g_gesture_recognition_model_data := [28, 44, 0, 0, 84]
               g_gesture_recognition_model_data_len := 5 }, 44) ∧
    perform { dataConst := false, lenConst := false } 32 (modelBlob 32 [28, 0, 0, 0, 84])
        (.assignLen 3)
      = .ok ({ g_gesture_recognition_model_data := [28, 0, 0, 0, 84]
               g_gesture_recognition_model_data_len := 3 }, 3) :=
  ⟨rfl, rfl⟩

/-! ## The claims -/

/-- C1, counterexample: with a 16-bit `int`, the blob generated from an artifact of
32768 bytes has 32768 elements while `g_gesture_recognition_model_data_len` holds
`-32768`: the count does not fit the declared type of the length. -/
theorem model_data_len_wraps_past_int_max :
    ((modelBlob 16 (List.replicate 32768 0)).g_gesture_recognition_model_data.length : Int) = 32768 ∧
    (modelBlob 16 (List.replicate 32768 0)).g_gesture_recognition_model_data_len = -32768 ∧
    ¬ ((modelBlob 16 (List.replicate 32768 0)).g_gesture_recognition_model_data_len
        = ((modelBlob 16 (List.replicate 32768 0)).g_gesture_recognition_model_data.length : Int)) := by
  have hlen : ((modelBlob 16 (List.replicate 32768 0)).g_gesture_recognition_model_data.length : Int)
      = 32768 := by
    simp only [modelBlob, link, companionDefinition, List.length_map, List.length_replicate]
    rfl
  have hval : (modelBlob 16 (List.replicate 32768 0)).g_gesture_recognition_model_data_len
      = -32768 := by
    simp only [modelBlob, link, companionDefinition, List.length_replicate]
    decide
  refine ⟨hlen, hval, ?_⟩
  rw [hlen, hval]
  decide

/-- C1, amended: for the model blob linked from the generated defining unit, the value
of `g_gesture_recognition_model_data_len` equals the number of elements of
`g_gesture_recognition_model_data` whenever that number is at most `INT_MAX`, the
largest value the declared type `int` of the length can hold. -/
theorem model_data_len_eq_length (w : Nat) (artifact : List Int)
    (hfit : (artifact.length : Int) ≤ INT_MAX w) :
    (modelBlob w artifact).g_gesture_recognition_model_data_len
      = ((modelBlob w artifact).g_gesture_recognition_model_data.length : Int) := by
  have hlo : INT_MIN w ≤ (artifact.length : Int) := by
    have hpos := two_pow_pos_int (w - 1)
    unfold INT_MIN
    omega
  simp only [modelBlob, link, companionDefinition, List.length_map]
  exact toInt_of_range w _ hlo hfit

/-- Instance of the amended C1: a five-byte artifact on a 32-bit `int`. -/
theorem model_data_len_eq_length_witness :
    ((5 : Int) ≤ INT_MAX 32) ∧
    (modelBlob 32 [28, 0, 0, 0, 84]).g_gesture_recognition_model_data_len
      = ((modelBlob 32 [28, 0, 0, 0, 84]).g_gesture_recognition_model_data.length : Int) :=
  ⟨by decide, model_data_len_eq_length 32 [28, 0, 0, 0, 84] (by decide)⟩

/-- C2, counterexample: on a 32-bit `int` the declared length can hold `-1`, so the
declared type does not make the length non-negative. -/
theorem model_data_len_can_be_negative :
    (link 32 { dataInit := [], lenInit := -1 }).g_gesture_recognition_model_data_len = -1 ∧
    ¬ (0 ≤ (link 32 { dataInit := [], lenInit := -1 }).g_gesture_recognition_model_data_len) := by
  decide

/-- C2, amended: every value the declared length can hold lies in the range of `int`,
`INT_MIN w ≤ length ≤ INT_MAX w`, and the smallest of them, `INT_MIN w`, is negative and
can be held. -/
theorem model_data_len_int_range (w : Nat) (u : DefiningUnit) :
    (INT_MIN w ≤ (link w u).g_gesture_recognition_model_data_len ∧
      (link w u).g_gesture_recognition_model_data_len ≤ INT_MAX w) ∧
    INT_MIN w < 0 ∧
    (link w { u with lenInit := INT_MIN w }).g_gesture_recognition_model_data_len = INT_MIN w := by
  have hpos := two_pow_pos_int (w - 1)
  refine ⟨toInt_range w u.lenInit, ?_, ?_⟩
  · unfold INT_MIN
    omega
  · simp only [link]
    apply toInt_of_range w _ (le_refl _)
    unfold INT_MIN INT_MAX
    omega

/-- C3: under the declarations of the header, every operation on the two names that
is accepted leaves the data sequence and the length as they were, and it is one of
the two reads: the interface has no writer. -/
theorem model_blob_immutable (w : Nat) (m m' : ModelData) (op : Operation) (r : Int)
    (h : perform header w m op = .ok (m', r)) :
    (m'.g_gesture_recognition_model_data = m.g_gesture_recognition_model_data ∧
      m'.g_gesture_recognition_model_data_len = m.g_gesture_recognition_model_data_len) ∧
    ((∃ i, op = .readElement i) ∨ op = .readLen) := by
  cases op with
  | readElement i =>
    simp only [perform] at h
    split at h
    · simp only [Except.ok.injEq, Prod.mk.injEq] at h
      obtain ⟨rfl, _⟩ := h
      exact ⟨⟨rfl, rfl⟩, Or.inl ⟨i, rfl⟩⟩
    · cases h
  | readLen =>
    simp only [perform, Except.ok.injEq, Prod.mk.injEq] at h
    obtain ⟨rfl, _⟩ := h
    exact ⟨⟨rfl, rfl⟩, Or.inr rfl⟩
  | assignElement i v =>
    simp [perform, header] at h
  | assignLen v =>
    simp [perform, header] at h

/-- Instance of C3: reading element 4 of a five-byte blob yields 84 and the same blob. -/
theorem model_blob_immutable_witness :
    perform header 32 (modelBlob 32 [28, 0, 0, 0, 84]) (.readElement 4)
        = .ok (modelBlob 32 [28, 0, 0, 0, 84], 84) ∧
    ((modelBlob 32 [28, 0, 0, 0, 84]).g_gesture_recognition_model_data
        = (modelBlob 32 [28, 0, 0, 0, 84]).g_gesture_recognition_model_data ∧
      (modelBlob 32 [28, 0, 0, 0, 84]).g_gesture_recognition_model_data_len
        = (modelBlob 32 [28, 0, 0, 0, 84]).g_gesture_recognition_model_data_len) ∧
    ((∃ i, Operation.readElement 4 = .readElement i) ∨ Operation.readElement 4 = .readLen) :=
  ⟨rfl, model_blob_immutable 32 (modelBlob 32 [28, 0, 0, 0, 84])
    (modelBlob 32 [28, 0, 0, 0, 84]) (.readElement 4) 84 rfl⟩

/-- C5: every element of the model data buffer is an unsigned 8-bit value: for every
index `i` inside the buffer, `0 ≤ data[i] ≤ 255`, whatever the defining unit. -/
theorem model_data_elements_are_bytes (w : Nat) (u : DefiningUnit) (i : Nat)
    (h : i < (link w u).g_gesture_recognition_model_data.length) :
    0 ≤ (link w u).g_gesture_recognition_model_data[i] ∧
    (link w u).g_gesture_recognition_model_data[i] ≤ 255 :=
  link_data_mem_range w u _ (List.getElem_mem h)

/-- Instance of C5: an initialiser of 300 is held as 44. -/
theorem model_data_elements_are_bytes_witness :
    (2 < (link 32 { dataInit := [1, 2, 300, -1], lenInit := 4 }).g_gesture_recognition_model_data.length) ∧
    (0 ≤ (link 32 { dataInit := [1, 2, 300, -1], lenInit := 4 }).g_gesture_recognition_model_data[2] ∧
     (link 32 { dataInit := [1, 2, 300, -1], lenInit := 4 }).g_gesture_recognition_model_data[2] ≤ 255) :=
  ⟨by decide, model_data_elements_are_bytes 32 { dataInit := [1, 2, 300, -1], lenInit := 4 } 2 (by decide)⟩

/-- C6: the length bounds reads of the buffer: for every integer `i` with
`0 ≤ i < g_gesture_recognition_model_data_len`, the subscript
`g_gesture_recognition_model_data[i]` is in bounds and yields a byte. -/
theorem model_data_len_bounds_reads (w : Nat) (artifact : List Int) (i : Int) (h0 : 0 ≤ i)
    (hlt : i < (modelBlob w artifact).g_gesture_recognition_model_data_len) :
    ∃ b, readData (modelBlob w artifact) i = some b ∧ 0 ≤ b ∧ b ≤ 255 := by
  have hle : (modelBlob w artifact).g_gesture_recognition_model_data_len
      ≤ ((modelBlob w artifact).g_gesture_recognition_model_data.length : Int) := by
    simp only [modelBlob, link, companionDefinition, List.length_map]
    exact toInt_le_self w _ (Int.ofNat_nonneg _)
  obtain ⟨b, hb, hmem⟩ := readData_of_lt_length (modelBlob w artifact) i h0 (lt_of_lt_of_le hlt hle)
  exact ⟨b, hb, link_data_mem_range w (companionDefinition artifact) b hmem⟩

/-- Instance of C6: the last index below the length of a five-byte blob is readable. -/
theorem model_data_len_bounds_reads_witness :
    ((0 : Int) ≤ 4 ∧ (4 : Int) < (modelBlob 32 [28, 0, 0, 0, 84]).g_gesture_recognition_model_data_len) ∧
    ∃ b, readData (modelBlob 32 [28, 0, 0, 0, 84]) 4 = some b ∧ 0 ≤ b ∧ b ≤ 255 :=
  ⟨by decide, model_data_len_bounds_reads 32 [28, 0, 0, 0, 84] 4 (by decide) (by decide)⟩

end GestureModel
